import Mathlib

/-!
Verification development for the HBnB relation-consistency core.

The Python source is shallowly embedded as follows:

* Entity classes (`User`, `Place`, `Review`, `Amenity`) become Lean
  structures.  In the dynamic (state-machine) model, in namespace `Core`,
  the `created_at` / `updated_at` timestamps are omitted: no relational
  operation branches on them.  The serialization round-trip (namespace
  `Files`) models them explicitly.
* Python numbers used by the validated fields (`price`, `latitude`,
  `longitude`, `rating`) are modelled as `Int`; every comparison the
  source performs on them is an order comparison, which `Int` reflects
  faithfully on integral inputs.  The `isinstance` type checks of the
  source are vacuous in the typed embedding.
* An `InMemoryRepository` (a Python dict `id -> object`) becomes an
  association list `Storage`.  `add` is dict assignment
  (overwrite-or-append), `update` replaces the stored object's fields
  when the key is present and is a silent no-op otherwise, `delete` is a
  silent no-op on a missing key, `get_by_attribute` is a linear scan over
  the values in insertion order.  The `SQLAlchemyRepository` operations
  used by the claims (get / add+commit / delete / filter_by) have the
  same observable semantics over this state and are modelled by the same
  `Storage` operations.
* A Python method that may `raise` becomes a function returning
  `AppState × Except PyError α`: the returned state is the state at the
  moment of the raise, so mutations already persisted survive an error
  (no rollback), exactly as in the source.
* `uuid.uuid4()` is modelled as an externally supplied identifier
  argument (`newId`); theorems that need its freshness state it as a
  hypothesis.
* `print` calls are ignored; `try/except ValueError: print; raise`
  blocks are the identity on the result and are dropped;
  `try/except ValueError: print` without a re-raise (which swallows the
  error) is modelled explicitly.
-/

/-- Python runtime errors distinguished by the embedding: `ValueError`
(the error kind every facade raises deliberately) and
`UnboundLocalError` (reading a local variable that was never assigned). -/
inductive PyError where
  | valueError (msg : String)
  | unboundLocalError (varName : String)
deriving DecidableEq

namespace Core

/-- `app.models.user.User`, dynamic fields (timestamps omitted, see header). -/
structure User where
  id : String
  first_name : String
  last_name : String
  email : String
  password : String
  is_admin : Bool
  places : List String
deriving DecidableEq

/-- `app.models.place.Place`, dynamic fields. -/
structure Place where
  id : String
  title : String
  description : String
  price : Int
  latitude : Int
  longitude : Int
  owner_first_name : String
  owner_id : String
  reviews : List String
  amenities : List String
deriving DecidableEq

/-- `app.models.review.Review`, dynamic fields. -/
structure Review where
  id : String
  text : String
  rating : Int
  place_id : String
  place_name : String
  user_id : String
  user_first_name : String
deriving DecidableEq

/-- `app.models.amenity.Amenity`, dynamic fields. -/
structure Amenity where
  id : String
  name : String
deriving DecidableEq

/-- `InMemoryRepository._storage`: a Python dict `id -> object`,
modelled as an association list in insertion order. -/
structure Storage (α : Type) where
  entries : List (String × α)
deriving DecidableEq

namespace Storage

/-- First value bound to key `k` (Python dict keys are unique, so this
is dict lookup). -/
def lookup : List (String × α) → String → Option α
  | [], _ => none
  | p :: l, k => if p.1 == k then some p.2 else lookup l k

/-- `InMemoryRepository.get`: `self._storage.get(obj_id)`. -/
def get (st : Storage α) (k : String) : Option α :=
  lookup st.entries k

/-- `InMemoryRepository.add`: `self._storage[obj.id] = obj` (dict
assignment: overwrite when the key is present, append otherwise). -/
def add (st : Storage α) (k : String) (v : α) : Storage α :=
  if (st.entries.find? (fun p => p.1 == k)).isSome then
    ⟨st.entries.map (fun p => if p.1 == k then (p.1, v) else p)⟩
  else
    ⟨st.entries ++ [(k, v)]⟩

/-- `InMemoryRepository.update(obj_id, data)`: fetch the object and
overwrite its fields from `data` when present, silently do nothing
otherwise.  In every call site of the claims, `data` is `obj.to_dict()`
of the already-mutated object, so the net effect is replacing the stored
value. -/
def updateVal (st : Storage α) (k : String) (v : α) : Storage α :=
  ⟨st.entries.map (fun p => if p.1 == k then (p.1, v) else p)⟩

/-- `InMemoryRepository.delete`: `if obj_id in self._storage: del ...`
(silent no-op on a missing key). -/
def delete (st : Storage α) (k : String) : Storage α :=
  ⟨st.entries.filter (fun p => p.1 != k)⟩

/-- `InMemoryRepository.get_all`: `list(self._storage.values())`. -/
def values (st : Storage α) : List α :=
  st.entries.map (fun p => p.2)

end Storage

/-- The four per-entity repositories handed to the facades by the
persistence bootstrap. -/
structure AppState where
  users : Storage User
  places : Storage Place
  reviews : Storage Review
  amenities : Storage Amenity
deriving DecidableEq

/-- Result of a Python method: the state at return (or at the raise)
together with the returned value or the propagated error. -/
abbrev PyResult (α : Type) := AppState × Except PyError α

/-- Python `needle in haystack` on strings is substring containment;
`leadMatches` is the helper "needle is an initial segment of haystack". -/
def leadMatches : List Char → List Char → Bool
  | [], _ => true
  | _ :: _, [] => false
  | a :: as, b :: bs => a == b && leadMatches as bs

/-- Python `sub in s` for strings: some tail of `s` starts with `sub`. -/
def pyInStr (sub s : String) : Bool :=
  go sub.data s.data
where
  go (needle : List Char) : List Char → Bool
    | [] => leadMatches needle []
    | c :: rest => leadMatches needle (c :: rest) || go needle rest

/-- Payload for place creation (`place_data` dict).  The stamped fields
(`owner_id`, `owner_first_name`) and the optional `amenities`/`reviews`
keys mirror the keys the source reads or writes. -/
structure PlaceData where
  title : String
  description : String
  price : Int
  latitude : Int
  longitude : Int
  owner_first_name : String
  owner_id : String
  amenities : Option (List String)
  reviews : Option (List String)
deriving DecidableEq

/-- Payload for amenity creation (`amenity_data` dict). -/
structure AmenityData where
  name : String
deriving DecidableEq

/-- `Place.__init__`: fields from the payload; `amenities`/`reviews`
default to `[]` when the payload holds `None`. -/
def Place.init (newId : String) (d : PlaceData) : Place :=
  { id := newId
    title := d.title
    description := d.description
    price := d.price
    latitude := d.latitude
    longitude := d.longitude
    owner_first_name := d.owner_first_name
    owner_id := d.owner_id
    reviews := d.reviews.getD []
    amenities := d.amenities.getD [] }

/-- `Place.is_valid`, with the source's check order and its verbatim
conditions.  Note the source's last check reads
`self.longitude > 180 or self.latitude < -180` — the second operand
tests `latitude`, not `longitude`. -/
def Place.is_valid (p : Place) : Except PyError Bool :=
  if p.price < 0 then
    .error (.valueError "price must be a positive value")
  else if ¬ (0 < p.title.length ∧ p.title.length < 100) then
    .error (.valueError "title must not be empty and be less than 100 characters.")
  else if ¬ (0 < p.description.length ∧ p.description.length < 500) then
    .error (.valueError "Description must not be empty and be less than 500 characters.")
  else if ¬ (0 < p.owner_first_name.length ∧ p.owner_first_name.length < 100) then
    .error (.valueError "owner_first_name must not be empty and be less than 100 characters.")
  else if ¬ (0 < p.owner_id.length ∧ p.owner_id.length < 100) then
    .error (.valueError "owner_id must not be empty and be less than 100 characters.")
  else if p.latitude > 90 ∨ p.latitude < -90 then
    .error (.valueError "Must be within the range of -90.0 to 90.0")
  else if p.longitude > 180 ∨ p.latitude < -180 then
    .error (.valueError "Must be within the range of -90.0 to 90.0")
  else
    .ok true

/-- Python `str.strip()`: drop leading and trailing whitespace. -/
def pyStrip (s : String) : String :=
  ⟨((s.data.dropWhile Char.isWhitespace).reverse.dropWhile Char.isWhitespace).reverse⟩

/-- `Amenity.is_valid`: the stripped name must satisfy
`0 < len < 50`. -/
def Amenity.is_valid (a : Amenity) : Except PyError Bool :=
  if ¬ (0 < (pyStrip a.name).length ∧ (pyStrip a.name).length < 50) then
    .error (.valueError "Name must not be empty and less than 50 characters.")
  else
    .ok true

namespace PlaceFacade

/-- `PlaceFacade.create_place`: build the `Place`, fail Conflict when a
place with the same title already exists (`get_by_attribute` scan), run
`is_valid` (which raises on a bad field), then `add` to the repository.
The returned dict carries exactly the fields of the stored object and is
modelled by the object itself. -/
def create_place (s : AppState) (newId : String) (place_data : PlaceData) :
    PyResult Place :=
  let place := Place.init newId place_data
  let existing_place := s.places.values.filter (fun q => q.title == place.title)
  if ¬ existing_place.isEmpty then
    (s, .error (.valueError "Place already exists. Please choose another title."))
  else
    match place.is_valid with
    | .error e => (s, .error e)
    | .ok _ => ({ s with places := s.places.add place.id place }, .ok place)

end PlaceFacade

namespace AmenityFacade

/-- `AmenityFacade.create_amenity`: fail Conflict when an amenity with
the same name exists anywhere, validate, then `add`. -/
def create_amenity (s : AppState) (newId : String) (amenity_data : AmenityData) :
    PyResult Amenity :=
  let amenity : Amenity := { id := newId, name := amenity_data.name }
  let existing_amenity := s.amenities.values.filter (fun a => a.name == amenity.name)
  if ¬ existing_amenity.isEmpty then
    (s, .error (.valueError "Amenity already exists. Please choose another name."))
  else
    match amenity.is_valid with
    | .error e => (s, .error e)
    | .ok _ => ({ s with amenities := s.amenities.add amenity.id amenity }, .ok amenity)

end AmenityFacade

namespace FacadeRelationManager

/-- `FacadeRelationManager.create_place_for_user` (whole-object
backend): require the user to exist, stamp `owner_id`, empty
`amenities`/`reviews` lists and the cached owner first name onto the
payload, delegate to `PlaceFacade.create_place`, then append the new
place id to `user.places` and persist the user. -/
def create_place_for_user (s : AppState) (newId user_id : String)
    (place_data : PlaceData) : PyResult Place :=
  match s.users.get user_id with
  | none => (s, .error (.valueError "User not found."))
  | some user =>
    let d := { place_data with
                owner_id := user_id
                amenities := some []
                reviews := some []
                owner_first_name := user.first_name }
    match PlaceFacade.create_place s newId d with
    | (s1, .error e) => (s1, .error e)
    | (s1, .ok place) =>
      let user1 := { user with places := user.places ++ [place.id] }
      ({ s1 with users := s1.users.updateVal user_id user1 }, .ok place)

/-- `FacadeRelationManager.delete_place_from_owner_place_list`
(whole-object backend): load the user (NotFound if absent), remove the
place id from `user.places` (`list.remove`: first occurrence; NotFound
if not a member) and persist the user, then delete the place from its
repository.  No `try/except` in the source: every error propagates. -/
def delete_place_from_owner_place_list (s : AppState) (place_id user_id : String) :
    PyResult Unit :=
  match s.users.get user_id with
  | none => (s, .error (.valueError "User not found"))
  | some user =>
    if user.places.contains place_id then
      let user1 := { user with places := user.places.erase place_id }
      let s1 := { s with users := s.users.updateVal user_id user1 }
      ({ s1 with places := s1.places.delete place_id }, .ok ())
    else
      (s, .error (.valueError "Place ID not found in user's places list."))

/-- `FacadeRelationManager.delete_place_and_associated_instances`
(whole-object backend), in source order: load place (NotFound), load
owner (NotFound), remove the place id from the owner's `places` and
persist the owner, then — only when `place.reviews` is non-empty —
delete every listed review and finally the place itself; when
`place.reviews` is empty the source raises
`"No corresponding review found for this place."` instead, leaving the
already-persisted owner mutation in place and the place undeleted.
The surrounding `try/except ValueError: print; raise` is the identity
on the result. -/
def delete_place_and_associated_instances (s : AppState) (place_id : String) :
    PyResult Unit :=
  match s.places.get place_id with
  | none => (s, .error (.valueError "Place not found"))
  | some place =>
    match s.users.get place.owner_id with
    | none => (s, .error (.valueError "User not found"))
    | some user =>
      if user.places.contains place_id then
        let user1 := { user with places := user.places.erase place_id }
        let s1 := { s with users := s.users.updateVal place.owner_id user1 }
        if place.reviews.isEmpty then
          (s1, .error (.valueError "No corresponding review found for this place."))
        else
          let s2 := { s1 with
            reviews := place.reviews.foldl (fun st rid => st.delete rid) s1.reviews }
          ({ s2 with places := s2.places.delete place_id }, .ok ())
      else
        (s, .error (.valueError "Place ID not found in user's places list."))

/-- Current value of `user.places` for the stored user — the list object
the source's `for place_id in places_ids_list` loop iterates.  The
assignment `places_ids_list = user.places` aliases the stored user's
live list (no copy), and each successful cascade mutates that same list
in place, so the Python iterator (index-based) reads the list as it
shrinks; re-reading the stored user's list at each index reproduces
this exactly.  (The user entry itself is never removed during the
loop; the `none` branch is unreachable from the loop's call sites.) -/
def userPlacesNow (s : AppState) (user_id : String) : List String :=
  match s.users.get user_id with
  | some u => u.places
  | none => []

/-- Index-based semantics of `for place_id in places_ids_list: ...` in
`delete_user_and_associated_instances`, with the body calling the place
cascade.  `fuel` only bounds recursion depth; the list never grows, so
`initial length + 1` is always sufficient. -/
def delete_user_places_loop (user_id : String) :
    Nat → AppState → Nat → PyResult Unit
  | 0, s, _ => (s, .ok ())
  | fuel + 1, s, i =>
    let ps := userPlacesNow s user_id
    if h : i < ps.length then
      match delete_place_and_associated_instances s (ps.get ⟨i, h⟩) with
      | (s1, .error e) => (s1, .error e)
      | (s1, .ok _) => delete_user_places_loop user_id fuel s1 (i + 1)
    else
      (s, .ok ())

/-- `FacadeRelationManager.delete_user_and_associated_instances`
(whole-object backend): load user (NotFound if absent), iterate the
user's live `places` list invoking the place cascade on each element,
then delete the user.  Errors from the cascade propagate (the
`try/except` re-raises). -/
def delete_user_and_associated_instances (s : AppState) (user_id : String) :
    PyResult Unit :=
  match s.users.get user_id with
  | none => (s, .error (.valueError "User not found"))
  | some user =>
    match delete_user_places_loop user_id (user.places.length + 1) s 0 with
    | (s1, .error e) => (s1, .error e)
    | (s1, .ok _) => ({ s1 with users := s1.users.delete user_id }, .ok ())

/-- `FacadeRelationManager.add_amenity_to_a_place` (whole-object
backend).  Source order: scan for an existing amenity of that name,
require the place to exist, fail Conflict when the name is already a
member of `place.amenities`, require `0 < len(name) < 50`, append the
name and persist the place, then create the amenity only when the scan
found none.  The trailing `return amenity` reads a local that is
assigned only inside `if not existing_amenity:`, so when the amenity
pre-existed the function raises `UnboundLocalError` — after the place
has already been mutated and persisted. -/
def add_amenity_to_a_place (s : AppState) (newId place_id : String)
    (amenity_data : AmenityData) : PyResult Amenity :=
  let amenity_name := amenity_data.name
  let existing_amenity := s.amenities.values.filter (fun a => a.name == amenity_name)
  match s.places.get place_id with
  | none => (s, .error (.valueError "Place not found."))
  | some place =>
    if place.amenities.contains amenity_name then
      (s, .error (.valueError "Amenity already exist for this place"))
    else if ¬ (0 < amenity_name.length ∧ amenity_name.length < 50) then
      (s, .error (.valueError "name must not be empty and less than 50 characters"))
    else
      let place1 := { place with amenities := place.amenities ++ [amenity_name] }
      let s1 := { s with places := s.places.updateVal place_id place1 }
      if existing_amenity.isEmpty then
        AmenityFacade.create_amenity s1 newId amenity_data
      else
        (s1, .error (.unboundLocalError "amenity"))

/-- `FacadeRelationManager.delete_amenity_from_place_list` (whole-object
backend): load place (NotFound), remove the name from
`place.amenities` (first occurrence; NotFound when not a member) and
persist the place, then call `amenity_repo.delete(amenity_name)` —
which keys the amenity repository by its ids (uuid strings), so
deleting by *name* silently removes nothing unless some amenity's id
equals the name. -/
def delete_amenity_from_place_list (s : AppState) (amenity_name place_id : String) :
    PyResult Unit :=
  match s.places.get place_id with
  | none => (s, .error (.valueError "Place not found"))
  | some place =>
    if place.amenities.contains amenity_name then
      let place1 := { place with amenities := place.amenities.erase amenity_name }
      let s1 := { s with places := s.places.updateVal place_id place1 }
      ({ s1 with amenities := s1.amenities.delete amenity_name }, .ok ())
    else
      (s, .error (.valueError "Amenity not found in places_amenities list."))

/-- `FacadeRelationManager.get_all_reviews_from_user`: require the user
to exist and the review repository to be non-empty, then keep every
review `r` with `user_id in r.user_id` — Python's `in` on strings, i.e.
substring containment, not equality.  (The source also stamps a
presentational `type` attribute on each match; no field of the model
depends on it.) -/
def get_all_reviews_from_user (s : AppState) (user_id : String) :
    PyResult (List Review) :=
  match s.users.get user_id with
  | none => (s, .error (.valueError "This user does not exist"))
  | some _ =>
    let reviews := s.reviews.values
    if reviews.isEmpty then
      (s, .error (.valueError "No review found in review repo"))
    else
      let user_reviews_list := reviews.filter (fun r => pyInStr user_id r.user_id)
      if user_reviews_list.isEmpty then
        (s, .error (.valueError "No review found for this user"))
      else
        (s, .ok user_reviews_list)

end FacadeRelationManager

namespace SQLAlchemyFacadeRelationManager

/-- `SQLAlchemyFacadeRelationManager.create_place_for_user`: stamp
`owner_id` and owner first name (the payload's `amenities`/`reviews`
pass through), create via the place facade, then append the place id to
`user.places` only when not already a member, and commit.  The
`if user.places is None` guard is vacuous here (lists are never `None`
in the typed model). -/
def create_place_for_user (s : AppState) (newId user_id : String)
    (place_data : PlaceData) : PyResult Place :=
  match s.users.get user_id with
  | none => (s, .error (.valueError "User not found."))
  | some user =>
    let d := { place_data with owner_id := user_id, owner_first_name := user.first_name }
    match PlaceFacade.create_place s newId d with
    | (s1, .error e) => (s1, .error e)
    | (s1, .ok place) =>
      let user1 :=
        if user.places.contains place.id then user
        else { user with places := user.places ++ [place.id] }
      ({ s1 with users := s1.users.updateVal user_id user1 }, .ok place)

/-- Body of `SQLAlchemyFacadeRelationManager.delete_place_from_owner_place_list`
(the statements inside its `try:` block): load user (NotFound), filter
the place id out of `user.places` (all occurrences) and commit
(NotFound when not a member), then delete the place. -/
def delete_place_from_owner_place_list_body (s : AppState)
    (place_id user_id : String) : PyResult Unit :=
  match s.users.get user_id with
  | none => (s, .error (.valueError "User not found"))
  | some user =>
    if user.places.contains place_id then
      let user1 := { user with places := user.places.filter (fun pid => pid != place_id) }
      let s1 := { s with users := s.users.updateVal user_id user1 }
      ({ s1 with places := s1.places.delete place_id }, .ok ())
    else
      (s, .error (.valueError "Place ID not found in user's places list."))

/-- `SQLAlchemyFacadeRelationManager.delete_place_from_owner_place_list`:
the body above wrapped in `try ... except ValueError as e: print(str(e))`
with no re-raise — a `ValueError` is printed and swallowed and the
method returns `None` normally. -/
def delete_place_from_owner_place_list (s : AppState)
    (place_id user_id : String) : PyResult Unit :=
  match delete_place_from_owner_place_list_body s place_id user_id with
  | (s1, .error (.valueError _)) => (s1, .ok ())
  | (s1, r) => (s1, r)

/-- `SQLAlchemyFacadeRelationManager.delete_place_and_associated_instances`:
like the whole-object cascade, but the review deletions are merely
skipped when `place.reviews` is empty — the place itself is deleted
either way (no raise on an empty review list). -/
def delete_place_and_associated_instances (s : AppState) (place_id : String) :
    PyResult Unit :=
  match s.places.get place_id with
  | none => (s, .error (.valueError "Place not found"))
  | some place =>
    match s.users.get place.owner_id with
    | none => (s, .error (.valueError "User not found"))
    | some user =>
      if user.places.contains place_id then
        let user1 := { user with places := user.places.filter (fun pid => pid != place_id) }
        let s1 := { s with users := s.users.updateVal place.owner_id user1 }
        let s2 :=
          if place.reviews.isEmpty then s1
          else { s1 with
            reviews := place.reviews.foldl (fun st rid => st.delete rid) s1.reviews }
        ({ s2 with places := s2.places.delete place_id }, .ok ())
      else
        (s, .error (.valueError "Place ID not found in user's places list."))

end SQLAlchemyFacadeRelationManager

end Core

namespace Files

/-- A Python `datetime` value, represented by its canonical
`isoformat()` rendering.  `datetime.fromisoformat` is exact on strings
produced by `isoformat()`, so on the records the round-trip claim
quantifies over (each entity's own export) the pair
`fromisoformat`/`isoformat` is a bijection, modelled by the wrapper
constructor and projection. -/
structure PyDateTime where
  iso : String
deriving DecidableEq

/-- `datetime.fromisoformat`. -/
def datetime_fromisoformat (s : String) : PyDateTime := ⟨s⟩

/-- `datetime.isoformat`. -/
def PyDateTime.isoformat (d : PyDateTime) : String := d.iso

/-- `app.models.user.User` with its timestamp fields, as handled by the
file backend. -/
structure User where
  id : String
  first_name : String
  last_name : String
  email : String
  password : String
  is_admin : Bool
  places : List String
  created_at : PyDateTime
  updated_at : PyDateTime
deriving DecidableEq

/-- `app.models.place.Place` with its timestamp fields. -/
structure Place where
  id : String
  title : String
  description : String
  price : Int
  latitude : Int
  longitude : Int
  owner_first_name : String
  owner_id : String
  reviews : List String
  amenities : List String
  created_at : PyDateTime
  updated_at : PyDateTime
deriving DecidableEq

/-- `app.models.review.Review` with its timestamp fields. -/
structure Review where
  id : String
  text : String
  rating : Int
  place_id : String
  place_name : String
  user_id : String
  user_first_name : String
  created_at : PyDateTime
  updated_at : PyDateTime
deriving DecidableEq

/-- `app.models.amenity.Amenity` with its timestamp fields. -/
structure Amenity where
  id : String
  name : String
  created_at : PyDateTime
  updated_at : PyDateTime
deriving DecidableEq

/-- Image of `User.to_dict()`: one field per dict key, timestamps as
ISO-8601 strings. -/
structure UserRecord where
  type : String
  id : String
  first_name : String
  last_name : String
  email : String
  password : String
  is_admin : Bool
  places : List String
  created_at : String
  updated_at : String
deriving DecidableEq

/-- Image of `Place.to_dict()`. -/
structure PlaceRecord where
  type : String
  id : String
  title : String
  description : String
  price : Int
  latitude : Int
  longitude : Int
  owner_first_name : String
  owner_id : String
  reviews : List String
  amenities : List String
  created_at : String
  updated_at : String
deriving DecidableEq

/-- Image of `Review.to_dict()`. -/
structure ReviewRecord where
  type : String
  id : String
  text : String
  rating : Int
  place_id : String
  place_name : String
  user_id : String
  user_first_name : String
  created_at : String
  updated_at : String
deriving DecidableEq

/-- Image of `Amenity.to_dict()`. -/
structure AmenityRecord where
  type : String
  id : String
  name : String
  created_at : String
  updated_at : String
deriving DecidableEq

/-- `User.to_dict`. -/
def User.to_dict (u : User) : UserRecord :=
  { type := "user"
    id := u.id
    first_name := u.first_name
    last_name := u.last_name
    email := u.email
    password := u.password
    is_admin := u.is_admin
    places := u.places
    created_at := u.created_at.isoformat
    updated_at := u.updated_at.isoformat }

/-- `Place.to_dict`. -/
def Place.to_dict (p : Place) : PlaceRecord :=
  { type := "place"
    id := p.id
    title := p.title
    description := p.description
    price := p.price
    latitude := p.latitude
    longitude := p.longitude
    owner_first_name := p.owner_first_name
    owner_id := p.owner_id
    reviews := p.reviews
    amenities := p.amenities
    created_at := p.created_at.isoformat
    updated_at := p.updated_at.isoformat }

/-- `Review.to_dict`. -/
def Review.to_dict (r : Review) : ReviewRecord :=
  { type := "review"
    id := r.id
    text := r.text
    rating := r.rating
    place_id := r.place_id
    place_name := r.place_name
    user_id := r.user_id
    user_first_name := r.user_first_name
    created_at := r.created_at.isoformat
    updated_at := r.updated_at.isoformat }

/-- `Amenity.to_dict`. -/
def Amenity.to_dict (a : Amenity) : AmenityRecord :=
  { type := "amenity"
    id := a.id
    name := a.name
    created_at := a.created_at.isoformat
    updated_at := a.updated_at.isoformat }

/-- A record as stored in the JSON file — one of the four `to_dict`
shapes.  (Heterogeneous dicts are typed by shape here; `dict_to_obj`
still dispatches on the stored `type` value as the source does.) -/
inductive ObjRecord where
  | user : UserRecord → ObjRecord
  | place : PlaceRecord → ObjRecord
  | review : ReviewRecord → ObjRecord
  | amenity : AmenityRecord → ObjRecord
deriving DecidableEq

/-- A reconstructed model object of one of the four types. -/
inductive ObjModel where
  | user : User → ObjModel
  | place : Place → ObjModel
  | review : Review → ObjModel
  | amenity : Amenity → ObjModel
deriving DecidableEq

/-- `InFileRepository.dict_to_obj`: parse the two timestamp strings
with `datetime.fromisoformat`, dispatch on `obj_data.get('type')`,
rebuild the object through its constructor, then assign `id`,
`created_at`, `updated_at` (and `places` for users) from the record.
An unknown `type` value raises `ValueError`. -/
def dict_to_obj : ObjRecord → Except PyError ObjModel
  | .user r =>
    if r.type == "user" then
      .ok (.user
        { id := r.id
          first_name := r.first_name
          last_name := r.last_name
          email := r.email
          password := r.password
          is_admin := r.is_admin
          places := r.places
          created_at := datetime_fromisoformat r.created_at
          updated_at := datetime_fromisoformat r.updated_at })
    else .error (.valueError "Unknown object type")
  | .place r =>
    if r.type == "place" then
      .ok (.place
        { id := r.id
          title := r.title
          description := r.description
          price := r.price
          latitude := r.latitude
          longitude := r.longitude
          owner_first_name := r.owner_first_name
          owner_id := r.owner_id
          reviews := r.reviews
          amenities := r.amenities
          created_at := datetime_fromisoformat r.created_at
          updated_at := datetime_fromisoformat r.updated_at })
    else .error (.valueError "Unknown object type")
  | .review r =>
    if r.type == "review" then
      .ok (.review
        { id := r.id
          text := r.text
          rating := r.rating
          place_id := r.place_id
          place_name := r.place_name
          user_id := r.user_id
          user_first_name := r.user_first_name
          created_at := datetime_fromisoformat r.created_at
          updated_at := datetime_fromisoformat r.updated_at })
    else .error (.valueError "Unknown object type")
  | .amenity r =>
    if r.type == "amenity" then
      .ok (.amenity
        { id := r.id
          name := r.name
          created_at := datetime_fromisoformat r.created_at
          updated_at := datetime_fromisoformat r.updated_at })
    else .error (.valueError "Unknown object type")

/-- Re-export a reconstructed object: the per-type `to_dict`. -/
def ObjModel.to_dict : ObjModel → ObjRecord
  | .user u => .user u.to_dict
  | .place p => .place p.to_dict
  | .review r => .review r.to_dict
  | .amenity a => .amenity a.to_dict

end Files

namespace Fixtures

open Core

/-- A sample owner; `places` holds the single place `p1`. -/
def alice : User :=
  { id := "u1", first_name := "Alice", last_name := "Doe", email := "a@b.com"
    password := "hash", is_admin := false, places := ["p1"] }

/-- A sample place owned by `u1` with a parameterized review-id list. -/
def loft (reviews : List String) : Place :=
  { id := "p1", title := "Loft", description := "x", price := 100
    latitude := 10, longitude := 10, owner_first_name := "Alice"
    owner_id := "u1", reviews := reviews, amenities := [] }

/-- A second place owned by `u1`. -/
def cabin (reviews : List String) : Place :=
  { id := "p2", title := "Cabin", description := "y", price := 50
    latitude := 20, longitude := 20, owner_first_name := "Alice"
    owner_id := "u1", reviews := reviews, amenities := [] }

/-- A sample review on `p1` by `u1`. -/
def review1 : Review :=
  { id := "r1", text := "nice", rating := 5, place_id := "p1"
    place_name := "Loft", user_id := "u1", user_first_name := "Alice" }

/-- A sample review on `p2` by `u1`. -/
def review2 : Review :=
  { id := "r2", text := "cosy", rating := 4, place_id := "p2"
    place_name := "Cabin", user_id := "u1", user_first_name := "Alice" }

/-- Empty application state. -/
def emptyState : AppState :=
  { users := ⟨[]⟩, places := ⟨[]⟩, reviews := ⟨[]⟩, amenities := ⟨[]⟩ }

/-- State for C1: `u1` owns `p1`, and `p1` has zero reviews. -/
def stateZeroReviews : AppState :=
  { users := ⟨[("u1", alice)]⟩
    places := ⟨[("p1", loft [])]⟩
    reviews := ⟨[]⟩
    amenities := ⟨[]⟩ }

/-- State for C2's counterexample: `u1` owns `p1` and `p2`, each with
one review. -/
def stateTwoPlaces : AppState :=
  { users := ⟨[("u1", { alice with places := ["p1", "p2"] })]⟩
    places := ⟨[("p1", loft ["r1"]), ("p2", cabin ["r2"])]⟩
    reviews := ⟨[("r1", review1), ("r2", review2)]⟩
    amenities := ⟨[]⟩ }

/-- State for C2's witness: `u1` owns only `p1`, which has one review. -/
def stateOnePlace : AppState :=
  { users := ⟨[("u1", alice)]⟩
    places := ⟨[("p1", loft ["r1"])]⟩
    reviews := ⟨[("r1", review1)]⟩
    amenities := ⟨[]⟩ }

/-- State for C3's witness: a user with no places yet. -/
def stateUserOnly : AppState :=
  { users := ⟨[("u1", { alice with places := [] })]⟩
    places := ⟨[]⟩, reviews := ⟨[]⟩, amenities := ⟨[]⟩ }

/-- Payload for C3's witness. -/
def loftData : PlaceData :=
  { title := "Loft", description := "x", price := 100, latitude := 10
    longitude := 10, owner_first_name := "", owner_id := ""
    amenities := none, reviews := none }

/-- The global Wifi amenity record (uuid-style id distinct from the
name). -/
def wifi : Amenity := { id := "am1", name := "Wifi" }

/-- The place `p1` with `Wifi` in its `amenities` list. -/
def loftWifi : Place := { loft [] with amenities := ["Wifi"] }

/-- State for C4's witness: `p1` lists the amenity name `Wifi`, and the
global `Amenity` record named `Wifi` is stored under its uuid id. -/
def stateWifiOnPlace : AppState :=
  { users := ⟨[("u1", alice)]⟩
    places := ⟨[("p1", { loft [] with amenities := ["Wifi"] })]⟩
    reviews := ⟨[]⟩
    amenities := ⟨[("am1", wifi)]⟩ }

/-- State for C5: the `Wifi` amenity exists globally but is not yet a
member of `p1.amenities`. -/
def stateWifiGlobalOnly : AppState :=
  { users := ⟨[("u1", alice)]⟩
    places := ⟨[("p1", loft [])]⟩
    reviews := ⟨[]⟩
    amenities := ⟨[("am1", wifi)]⟩ }

/-- State for C5's fresh-name branch and C9: a place with no amenities
and an empty amenity repository. -/
def statePlaceOnly : AppState :=
  { users := ⟨[("u1", alice)]⟩
    places := ⟨[("p1", loft [])]⟩
    reviews := ⟨[]⟩
    amenities := ⟨[]⟩ }

/-- Valid payload except for the longitude, which lies below -180. -/
def lowLongitudeData : PlaceData :=
  { title := "Loft", description := "x", price := 100, latitude := 0
    longitude := -181, owner_first_name := "Alice", owner_id := "u1"
    amenities := some [], reviews := some [] }

/-- Valid payload except for the longitude, which lies above 180. -/
def highLongitudeData : PlaceData :=
  { lowLongitudeData with longitude := 200 }

/-- Valid payload except for the latitude, which lies above 90. -/
def highLatitudeData : PlaceData :=
  { lowLongitudeData with longitude := 10, latitude := 91 }

/-- A 50-character amenity name. -/
def name50 : String :=
  "aaaaaaaaaaaaaaaaaaaaaaaaaaaaaaaaaaaaaaaaaaaaaaaaaa"

/-- State for C10: two users whose ids `u1` and `u12` are distinct but
one is a strict substring of the other; the only review is authored by
`u12`. -/
def stateSubstrIds : AppState :=
  { users := ⟨[("u1", { alice with places := [] }),
               ("u12", { alice with id := "u12", email := "c@d.com", places := [] })]⟩
    places := ⟨[("p1", loft ["r9"])]⟩
    reviews := ⟨[("r9", { review1 with id := "r9", user_id := "u12" })]⟩
    amenities := ⟨[]⟩ }

end Fixtures

instance {e a : Type} [DecidableEq e] [DecidableEq a] : DecidableEq (Except e a) := fun x y =>
  match x, y with
  | .error u, .error v =>
    if h : u = v then isTrue (congrArg Except.error h)
    else isFalse (fun hc => h (Except.error.inj hc))
  | .ok u, .ok v =>
    if h : u = v then isTrue (congrArg Except.ok h)
    else isFalse (fun hc => h (Except.ok.inj hc))
  | .error _, .ok _ => isFalse (fun hc => Except.noConfusion hc)
  | .ok _, .error _ => isFalse (fun hc => Except.noConfusion hc)

namespace Core

theorem Storage.lookup_map_replace {α : Type} (l : List (String × α)) (k : String) (v : α) :
    Storage.lookup (l.map (fun p => if p.1 == k then (p.1, v) else p)) k
      = (Storage.lookup l k).map (fun _ => v) := by
  induction l with
  | nil => rfl
  | cons p l ih =>
    cases hb : (p.1 == k) with
    | true => simp [Storage.lookup, hb]
    | false =>
      have hnb : ¬ ((p.1 == k) = true) := by simp [hb]
      have hfp : (if (p.1 == k) then (p.1, v) else p) = p := if_neg hnb
      show Storage.lookup
          ((if (p.1 == k) then (p.1, v) else p)
            :: l.map (fun q => if q.1 == k then (q.1, v) else q)) k
        = (Storage.lookup (p :: l) k).map (fun _ => v)
      rw [hfp]
      show (if (p.1 == k) then some p.2
            else Storage.lookup (l.map (fun q => if q.1 == k then (q.1, v) else q)) k)
        = (if (p.1 == k) then some p.2 else Storage.lookup l k).map (fun _ => v)
      rw [if_neg hnb, if_neg hnb]
      exact ih

theorem Storage.get_updateVal {α : Type} (st : Storage α) (k : String) (v : α) :
    (st.updateVal k v).get k = (st.get k).map (fun _ => v) :=
  Storage.lookup_map_replace st.entries k v

theorem Storage.lookup_filter_ne {α : Type} (l : List (String × α)) (k : String) :
    Storage.lookup (l.filter (fun p => p.1 != k)) k = none := by
  induction l with
  | nil => rfl
  | cons p l ih =>
    cases hb : (p.1 == k) with
    | true => simpa [List.filter_cons, bne, hb] using ih
    | false => simpa [List.filter_cons, bne, hb, Storage.lookup] using ih

theorem Storage.get_delete_self {α : Type} (st : Storage α) (k : String) :
    (st.delete k).get k = none :=
  Storage.lookup_filter_ne st.entries k

theorem Storage.delete_of_get_none {α : Type} (st : Storage α) (k : String)
    (h : st.get k = none) : st.delete k = st := by
  have hl : ∀ l : List (String × α), Storage.lookup l k = none →
      l.filter (fun p => p.1 != k) = l := by
    intro l
    induction l with
    | nil => intro _; rfl
    | cons p l ih =>
      intro hc
      cases hb : (p.1 == k) with
      | true => simp [Storage.lookup, hb] at hc
      | false =>
        have hc2 : Storage.lookup l k = none := by
          simpa [Storage.lookup, hb] using hc
        have hkeep : ((p.1 != k) = true) := by simp [bne, hb]
        show List.filter (fun q => q.1 != k) (p :: l) = p :: l
        simp only [List.filter_cons]
        rw [if_pos hkeep, ih hc2]
  show Storage.mk (st.entries.filter (fun p => p.1 != k)) = st
  rw [hl st.entries h]

theorem Storage.mem_delete {α : Type} (st : Storage α) (k : String)
    (q : String × α) (h : q ∈ (st.delete k).entries) : q ∈ st.entries ∧ q.1 ≠ k := by
  have h2 := List.mem_filter.mp h
  refine ⟨h2.1, ?_⟩
  have := h2.2
  simpa [bne_iff_ne] using this

end Core

open Core Fixtures in
/-- C1: on a stored place whose owner exists but whose `reviews` list is
empty, the whole-object cascade `delete_place_and_associated_instances`
does NOT complete the fixed order: after removing the place id from the
owner's `places` list and persisting the owner, it raises
`"No corresponding review found for this place."` and leaves the place
in storage — whereas the claim (and the SQLAlchemy twin, shown in the
second conjunct, which deletes the place on the same input) requires
the place to be deleted even with zero reviews. -/
theorem C1_zero_reviews_cascade_failing_input :
    ((FacadeRelationManager.delete_place_and_associated_instances
        stateZeroReviews "p1").2
      = .error (.valueError "No corresponding review found for this place.")
    ∧ ((FacadeRelationManager.delete_place_and_associated_instances
        stateZeroReviews "p1").1).places.get "p1" = some (loft [])
    ∧ ((FacadeRelationManager.delete_place_and_associated_instances
        stateZeroReviews "p1").1).users.get "u1" = some { alice with places := [] })
    ∧ (SQLAlchemyFacadeRelationManager.delete_place_and_associated_instances
        stateZeroReviews "p1").2 = .ok ()
    ∧ ((SQLAlchemyFacadeRelationManager.delete_place_and_associated_instances
        stateZeroReviews "p1").1).places.get "p1" = none := by
  decide

open Core Fixtures in
/-- C2 counterexample: for an existing user `u1` owning the two places
`p1` and `p2` (each place existing, owned by `u1` and carrying one
review), `delete_user_and_associated_instances` returns normally and
deletes the user, yet `p2` — iterated over by the live, shrinking
`places` list — is never cascaded and survives in storage with
`owner_id = "u1"`, contradicting both the snapshot sentence and the
post-condition that no place owned by U remains. -/
theorem C2_no_snapshot_counterexample :
    (FacadeRelationManager.delete_user_and_associated_instances
        stateTwoPlaces "u1").2 = .ok ()
    ∧ ((FacadeRelationManager.delete_user_and_associated_instances
        stateTwoPlaces "u1").1).users.get "u1" = none
    ∧ ((FacadeRelationManager.delete_user_and_associated_instances
        stateTwoPlaces "u1").1).places.get "p2" = some (cabin ["r2"])
    ∧ (cabin ["r2"]).owner_id = "u1" := by
  decide

open Core Fixtures in
/-- C5: when an `Amenity` named `Wifi` already exists globally and a
place without that name in its `amenities` list receives
`add_amenity_to_a_place`, the source appends the name and persists the
place but then executes `return amenity` with the local `amenity` never
assigned (the creating branch was skipped), raising `UnboundLocalError`
instead of returning the pre-existing amenity record; the second half
shows the fresh-name branch does return the created record. -/
theorem C5_preexisting_amenity_crash_failing_input :
    ((FacadeRelationManager.add_amenity_to_a_place
        stateWifiGlobalOnly "am2" "p1" ⟨"Wifi"⟩).2
      = .error (.unboundLocalError "amenity")
    ∧ ((FacadeRelationManager.add_amenity_to_a_place
        stateWifiGlobalOnly "am2" "p1" ⟨"Wifi"⟩).1).places.get "p1"
      = some { loft [] with amenities := ["Wifi"] }
    ∧ ((FacadeRelationManager.add_amenity_to_a_place
        stateWifiGlobalOnly "am2" "p1" ⟨"Wifi"⟩).1).amenities
      = stateWifiGlobalOnly.amenities)
    ∧ ((FacadeRelationManager.add_amenity_to_a_place
        statePlaceOnly "am2" "p1" ⟨"Wifi"⟩).2
      = .ok { id := "am2", name := "Wifi" }
    ∧ ((FacadeRelationManager.add_amenity_to_a_place
        statePlaceOnly "am2" "p1" ⟨"Wifi"⟩).1).places.get "p1"
      = some { loft [] with amenities := ["Wifi"] }) := by
  decide

open Core Fixtures in
/-- C6: on an input whose first step fails (the referenced user is
absent), the SQLAlchemy manager's `delete_place_from_owner_place_list`
catches the `ValueError`, prints it, and returns `None` normally —
swallowing the error instead of raising it to the caller — while the
whole-object manager's method with the same name propagates the error
on the same input. -/
theorem C6_sqla_swallows_error_failing_input :
    SQLAlchemyFacadeRelationManager.delete_place_from_owner_place_list
        emptyState "p1" "u1" = (emptyState, .ok ())
    ∧ FacadeRelationManager.delete_place_from_owner_place_list
        emptyState "p1" "u1" = (emptyState, .error (.valueError "User not found")) := by
  decide

open Core Fixtures in
/-- C8: a place-creation payload whose longitude is -181 (outside
[-180,180]) with every other field well-formed is ACCEPTED by
`PlaceFacade.create_place` and written to the repository — the
validator's last check reads `longitude > 180 or latitude < -180`,
so longitudes below -180 are never tested — while payloads with
longitude 200 or latitude 91 are rejected with a Validation error and
no write, as the claim describes. -/
theorem C8_longitude_validation_failing_input :
    ((PlaceFacade.create_place emptyState "p1" lowLongitudeData).2
      = .ok (Place.init "p1" lowLongitudeData)
    ∧ ((PlaceFacade.create_place emptyState "p1" lowLongitudeData).1).places.get "p1"
      = some (Place.init "p1" lowLongitudeData)
    ∧ lowLongitudeData.longitude < -180)
    ∧ PlaceFacade.create_place emptyState "p1" highLongitudeData
      = (emptyState, .error (.valueError "Must be within the range of -90.0 to 90.0"))
    ∧ PlaceFacade.create_place emptyState "p1" highLatitudeData
      = (emptyState, .error (.valueError "Must be within the range of -90.0 to 90.0")) := by
  decide

open Core Fixtures in
/-- C9 counterexample: the claim says every name of length between 1
and 50 inclusive passes the name check, but a 50-character name is
rejected: the source requires `0 < len(name) < 50`, so
`add_amenity_to_a_place` raises the Validation error and leaves the
state unchanged on a name of length exactly 50. -/
theorem C9_length_50_counterexample :
    name50.length = 50
    ∧ FacadeRelationManager.add_amenity_to_a_place
        statePlaceOnly "am2" "p1" ⟨name50⟩
      = (statePlaceOnly,
         .error (.valueError "name must not be empty and less than 50 characters")) := by
  decide

open Core Fixtures in
/-- C10: `get_all_reviews_from_user` filters with Python's `in`
(substring containment) on the `user_id` field: for the two existing
users with distinct ids `u1` and `u12`, where `u1` is a strict
substring of `u12`, the query for `u1` returns the review `r9` authored
by `u12`. -/
theorem C10_substring_selection :
    (FacadeRelationManager.get_all_reviews_from_user stateSubstrIds "u1").2
      = .ok [{ review1 with id := "r9", user_id := "u12" }]
    ∧ ({ review1 with id := "r9", user_id := "u12" } : Review).user_id = "u12"
    ∧ "u1" ≠ "u12"
    ∧ (stateSubstrIds.users.get "u1").isSome
    ∧ (stateSubstrIds.users.get "u12").isSome := by
  decide

open Core in
/-- Frame fact used by C9: `create_amenity` touches only the amenity
repository. -/
theorem AmenityFacade.create_amenity_places_frame (s : AppState) (newId : String)
    (d : AmenityData) : ((AmenityFacade.create_amenity s newId d).1).places = s.places := by
  simp only [AmenityFacade.create_amenity]
  split
  · rfl
  · split
    · rfl
    · rfl

open Core in
/-- C4: for a stored place whose `amenities` list contains the name `N`,
and an amenity repository none of whose keys (amenity ids) equals `N`
— always the case for uuid-generated ids — the whole-object
`delete_amenity_from_place_list` returns successfully and the final
state differs from the initial one only in that place's `amenities`
field: the amenity repository (hence any global `Amenity` record named
`N`), the users and the reviews are untouched, because the trailing
`amenity_repo.delete(amenity_name)` looks the *name* up among ids and
silently removes nothing. -/
theorem C4_delete_amenity_frame (s : Core.AppState) (amenity_name place_id : String)
    (pl : Core.Place)
    (hpl : s.places.get place_id = some pl)
    (hmem : pl.amenities.contains amenity_name = true)
    (hkey : s.amenities.get amenity_name = none) :
    FacadeRelationManager.delete_amenity_from_place_list s amenity_name place_id
      = ({ s with places :=
              s.places.updateVal place_id { pl with amenities := pl.amenities.erase amenity_name } },
         .ok ()) := by
  simp only [FacadeRelationManager.delete_amenity_from_place_list, hpl, hmem]
  rw [Storage.delete_of_get_none s.amenities amenity_name hkey]
  simp

open Core Fixtures in
/-- C4 witness: concrete run of `C4_delete_amenity_frame` on a state
where `p1` lists `Wifi` and the global `Wifi` amenity is stored under
its uuid-style id `am1`. -/
theorem C4_delete_amenity_frame_witness :
    (stateWifiOnPlace.places.get "p1" = some loftWifi
      ∧ loftWifi.amenities.contains "Wifi" = true
      ∧ stateWifiOnPlace.amenities.get "Wifi" = none)
    ∧ FacadeRelationManager.delete_amenity_from_place_list stateWifiOnPlace "Wifi" "p1"
      = ({ stateWifiOnPlace with places :=
              stateWifiOnPlace.places.updateVal "p1" { loftWifi with amenities := (["Wifi"] : List String).erase "Wifi" } },
         .ok ()) :=
  ⟨⟨by decide, by decide, by decide⟩,
   C4_delete_amenity_frame stateWifiOnPlace "Wifi" "p1" loftWifi
     (by decide) (by decide) (by decide)⟩

open Core in
/-- C9 (amended): for a stored place not yet listing the name, the
in-line name check of `add_amenity_to_a_place` admits exactly the
lengths 1..49: when `0 < len < 50` fails (empty, or length ≥ 50 —
including exactly 50) the operation raises the Validation error with
the state unchanged; when it holds, the check passes and the name is
appended to the place's `amenities` and persisted. -/
theorem C9_name_check_amended (s : Core.AppState) (newId place_id : String)
    (d : Core.AmenityData) (pl : Core.Place)
    (hpl : s.places.get place_id = some pl)
    (hmem : pl.amenities.contains d.name = false) :
    (¬ (0 < d.name.length ∧ d.name.length < 50) →
      FacadeRelationManager.add_amenity_to_a_place s newId place_id d
        = (s, .error (.valueError "name must not be empty and less than 50 characters")))
    ∧ ((0 < d.name.length ∧ d.name.length < 50) →
      ((FacadeRelationManager.add_amenity_to_a_place s newId place_id d).1).places.get place_id
        = some { pl with amenities := pl.amenities ++ [d.name] }) := by
  constructor
  · intro hlen
    simp only [FacadeRelationManager.add_amenity_to_a_place, hpl, hmem]
    simp [hlen]
  · intro hlen
    simp only [FacadeRelationManager.add_amenity_to_a_place, hpl, hmem]
    simp only [Bool.false_eq_true, if_false, if_neg (not_not_intro hlen)]
    split
    · rw [AmenityFacade.create_amenity_places_frame]
      dsimp only
      rw [Storage.get_updateVal, hpl]
      rfl
    · dsimp only
      rw [Storage.get_updateVal, hpl]
      rfl

open Core Fixtures in
/-- C9 witness: concrete run of `C9_name_check_amended` on `p1` with the
four-character name `Wifi`. -/
theorem C9_name_check_amended_witness :
    (statePlaceOnly.places.get "p1" = some (loft [])
      ∧ (loft []).amenities.contains "Wifi" = false)
    ∧ ((¬ (0 < ("Wifi" : String).length ∧ ("Wifi" : String).length < 50) →
        FacadeRelationManager.add_amenity_to_a_place statePlaceOnly "am2" "p1" ⟨"Wifi"⟩
          = (statePlaceOnly,
             .error (.valueError "name must not be empty and less than 50 characters")))
      ∧ ((0 < ("Wifi" : String).length ∧ ("Wifi" : String).length < 50) →
        ((FacadeRelationManager.add_amenity_to_a_place statePlaceOnly "am2" "p1" ⟨"Wifi"⟩).1).places.get "p1"
          = some { loft [] with amenities := (loft []).amenities ++ ["Wifi"] })) :=
  ⟨⟨by decide, by decide⟩,
   C9_name_check_amended statePlaceOnly "am2" "p1" ⟨"Wifi"⟩ (loft []) (by decide) (by decide)⟩

open Core in
/-- One unfolding of the `for place_id in places_ids_list` loop at
successor fuel. -/
theorem FacadeRelationManager.delete_user_places_loop_succ
    (user_id : String) (fuel : Nat) (st : Core.AppState) (i : Nat) :
    FacadeRelationManager.delete_user_places_loop user_id (fuel + 1) st i
      = (let ps := FacadeRelationManager.userPlacesNow st user_id;
         if h : i < ps.length then
           match FacadeRelationManager.delete_place_and_associated_instances st (ps.get ⟨i, h⟩) with
           | (s1, .error e) => (s1, .error e)
           | (s1, .ok _) => FacadeRelationManager.delete_user_places_loop user_id fuel s1 (i + 1)
         else (st, .ok ())) := rfl

open Core in
/-- Successful run of the whole-object place cascade on a place with a
non-empty review list: the owner loses the place id, the listed reviews
are deleted, and the place itself is deleted. -/
theorem FacadeRelationManager.delete_place_cascade_ok
    (s : Core.AppState) (user_id pid : String) (u : Core.User) (pl : Core.Place)
    (hU : s.users.get user_id = some u)
    (hpl : s.places.get pid = some pl)
    (howner : pl.owner_id = user_id)
    (hrev : pl.reviews ≠ [])
    (hmem : u.places.contains pid = true) :
    FacadeRelationManager.delete_place_and_associated_instances s pid
      = ({ users := s.users.updateVal user_id { u with places := u.places.erase pid },
           places := s.places.delete pid,
           reviews := pl.reviews.foldl (fun st rid => st.delete rid) s.reviews,
           amenities := s.amenities }, .ok ()) := by
  have hne : pl.reviews.isEmpty = false := by
    cases hr : pl.reviews with
    | nil => exact absurd hr hrev
    | cons a l => rfl
  simp only [FacadeRelationManager.delete_place_and_associated_instances, hpl, howner, hU,
    hmem, hne, if_true, Bool.false_eq_true, if_false]

open Core in
/-- C2 (amended): `delete_user_and_associated_instances` iterates the
user's live `places` list — `places_ids_list = user.places` aliases the
stored list, which the per-place cascade mutates — so removals shift
the iteration instead of being invisible as a snapshot would make them.
The operation still deletes U afterwards; and in the cases where the
aliasing cannot bite — U owning no place, or exactly one place (owned
by U, carrying at least one review, and every stored place owned by U
listed in U's `places`) — the run returns normally, U is gone, and no
place owned by U remains in storage.  (With two or more owned places
the post-condition fails: see the counterexample.) -/
theorem C2_delete_user_amended (s : Core.AppState) (user_id : String) (u : Core.User)
    (hU : s.users.get user_id = some u)
    (hshort : u.places = [] ∨
      ∃ pid pl, u.places = [pid] ∧ s.places.get pid = some pl ∧
        pl.owner_id = user_id ∧ pl.reviews ≠ [])
    (hOwn : ∀ q ∈ s.places.entries, q.2.owner_id = user_id → q.1 ∈ u.places) :
    (FacadeRelationManager.delete_user_and_associated_instances s user_id).2 = .ok ()
    ∧ ((FacadeRelationManager.delete_user_and_associated_instances s user_id).1).users.get user_id = none
    ∧ ∀ q ∈ ((FacadeRelationManager.delete_user_and_associated_instances s user_id).1).places.entries,
        q.2.owner_id ≠ user_id := by
  rcases hshort with hempty | ⟨pid, pl, hplaces, hpl, howner, hrev⟩
  · have hnow : FacadeRelationManager.userPlacesNow s user_id = [] := by
      simp [FacadeRelationManager.userPlacesNow, hU, hempty]
    have hloop : FacadeRelationManager.delete_user_places_loop user_id (u.places.length + 1) s 0
        = (s, .ok ()) := by
      rw [FacadeRelationManager.delete_user_places_loop_succ, hnow]
      simp
    have hrun : FacadeRelationManager.delete_user_and_associated_instances s user_id
        = ({ s with users := s.users.delete user_id }, .ok ()) := by
      simp only [FacadeRelationManager.delete_user_and_associated_instances, hU, hloop]
    rw [hrun]
    refine ⟨rfl, Storage.get_delete_self s.users user_id, ?_⟩
    intro q hq how
    have hin := hOwn q hq how
    rw [hempty] at hin
    exact absurd hin (List.not_mem_nil q.1)
  · have hmem : u.places.contains pid = true := by rw [hplaces]; simp
    have hcas := FacadeRelationManager.delete_place_cascade_ok s user_id pid u pl
      hU hpl howner hrev hmem
    set s3 : AppState :=
      { users := s.users.updateVal user_id { u with places := u.places.erase pid },
        places := s.places.delete pid,
        reviews := pl.reviews.foldl (fun st rid => st.delete rid) s.reviews,
        amenities := s.amenities } with hs3
    have hu1 : ({ u with places := u.places.erase pid } : User).places = [] := by
      simp [hplaces]
    have hnow : FacadeRelationManager.userPlacesNow s user_id = [pid] := by
      simp [FacadeRelationManager.userPlacesNow, hU, hplaces]
    have hnow2 : FacadeRelationManager.userPlacesNow s3 user_id = [] := by
      simp only [FacadeRelationManager.userPlacesNow, hs3]
      rw [Storage.get_updateVal, hU]
      simpa using hu1
    have hlen : u.places.length + 1 = 2 := by rw [hplaces]; rfl
    have hloop : FacadeRelationManager.delete_user_places_loop user_id (u.places.length + 1) s 0
        = (s3, .ok ()) := by
      rw [hlen, show (2 : Nat) = 1 + 1 from rfl,
        FacadeRelationManager.delete_user_places_loop_succ]
      simp only [hnow]
      rw [dif_pos (by simp)]
      have hget : ∀ (h : 0 < (FacadeRelationManager.userPlacesNow s user_id).length),
          (FacadeRelationManager.userPlacesNow s user_id).get ⟨0, h⟩ = pid := by
        intro h
        rw [List.get_of_eq hnow]
        rfl
      rw [hget, hcas]
      show FacadeRelationManager.delete_user_places_loop user_id 1 s3 (0 + 1) = (s3, Except.ok ())
      have hstep1 : FacadeRelationManager.delete_user_places_loop user_id 1 s3 (0 + 1)
          = (let ps := FacadeRelationManager.userPlacesNow s3 user_id;
             if h : 0 + 1 < ps.length then
               match FacadeRelationManager.delete_place_and_associated_instances s3 (ps.get ⟨0 + 1, h⟩) with
               | (s1, .error e) => (s1, .error e)
               | (s1, .ok _) => FacadeRelationManager.delete_user_places_loop user_id 0 s1 (0 + 1 + 1)
             else (s3, .ok ())) := rfl
      rw [hstep1]
      simp only [hnow2]
      rw [dif_neg (by simp)]
    have hrun : FacadeRelationManager.delete_user_and_associated_instances s user_id
        = ({ s3 with users := s3.users.delete user_id }, .ok ()) := by
      simp only [FacadeRelationManager.delete_user_and_associated_instances, hU, hloop]
    rw [hrun]
    refine ⟨rfl, Storage.get_delete_self s3.users user_id, ?_⟩
    intro q hq how
    have hq2 : q ∈ (s.places.delete pid).entries := hq
    obtain ⟨hmem2, hne⟩ := Storage.mem_delete s.places pid q hq2
    have hin := hOwn q hmem2 how
    rw [hplaces] at hin
    exact hne (List.mem_singleton.mp hin)

open Core Fixtures in
/-- C2 witness: concrete run of `C2_delete_user_amended` on a state
where `u1` owns exactly the place `p1` (one review): afterwards `u1` is
gone and no place owned by `u1` remains. -/
theorem C2_delete_user_amended_witness :
    (stateOnePlace.users.get "u1" = some alice
      ∧ stateOnePlace.places.get "p1" = some (loft ["r1"])
      ∧ (loft ["r1"]).owner_id = "u1" ∧ (loft ["r1"]).reviews ≠ [])
    ∧ ((FacadeRelationManager.delete_user_and_associated_instances stateOnePlace "u1").2 = .ok ()
      ∧ ((FacadeRelationManager.delete_user_and_associated_instances stateOnePlace "u1").1).users.get "u1" = none
      ∧ ∀ q ∈ ((FacadeRelationManager.delete_user_and_associated_instances stateOnePlace "u1").1).places.entries,
          q.2.owner_id ≠ "u1") :=
  ⟨⟨by decide, by decide, rfl, by decide⟩,
   C2_delete_user_amended stateOnePlace "u1" alice (by decide)
     (Or.inr ⟨"p1", loft ["r1"], rfl, by decide, rfl, by decide⟩)
     (by decide)⟩

open Core in
/-- Inversion of a successful `PlaceFacade.create_place`: the returned
record is the constructed place and the user repository is untouched. -/
theorem PlaceFacade.create_place_ok_inv (s : Core.AppState) (newId : String)
    (d : Core.PlaceData) (s1 : Core.AppState) (place : Core.Place)
    (h : PlaceFacade.create_place s newId d = (s1, .ok place)) :
    place = Place.init newId d ∧ s1.users = s.users := by
  simp only [PlaceFacade.create_place] at h
  split at h
  · exact Except.noConfusion (congrArg Prod.snd h)
  · split at h
    · exact Except.noConfusion (congrArg Prod.snd h)
    · have hfst := congrArg Prod.fst h
      have hsnd := congrArg Prod.snd h
      dsimp only at hfst hsnd
      refine ⟨(Except.ok.inj hsnd).symm, ?_⟩
      rw [← hfst]

open Core in
/-- C3: `create_place_for_user` (in both manager implementations)
raises NotFound and leaves the state untouched when the user does not
exist; and on success — given that the freshly generated place id is
not already in the user's `places` list, which uuid generation
guarantees — the returned place carries `owner_id = U` and its id
appears exactly once in U's `places` list afterward. -/
theorem C3_create_place_for_user_exactly_once
    (s : Core.AppState) (newId user_id : String) (d : Core.PlaceData) :
    (s.users.get user_id = none →
      FacadeRelationManager.create_place_for_user s newId user_id d
        = (s, .error (.valueError "User not found."))
      ∧ SQLAlchemyFacadeRelationManager.create_place_for_user s newId user_id d
        = (s, .error (.valueError "User not found.")))
    ∧ (∀ u : Core.User, s.users.get user_id = some u → newId ∉ u.places →
      (∀ s1 place,
        FacadeRelationManager.create_place_for_user s newId user_id d = (s1, .ok place) →
        place.owner_id = user_id ∧ place.id = newId
          ∧ ∃ u1, s1.users.get user_id = some u1 ∧ u1.places.count newId = 1)
      ∧ (∀ s1 place,
        SQLAlchemyFacadeRelationManager.create_place_for_user s newId user_id d = (s1, .ok place) →
        place.owner_id = user_id ∧ place.id = newId
          ∧ ∃ u1, s1.users.get user_id = some u1 ∧ u1.places.count newId = 1)) := by
  constructor
  · intro hNone
    constructor
    · simp only [FacadeRelationManager.create_place_for_user, hNone]
    · simp only [SQLAlchemyFacadeRelationManager.create_place_for_user, hNone]
  · intro u hU hfresh
    constructor
    · intro s1 place hrun
      simp only [FacadeRelationManager.create_place_for_user, hU] at hrun
      split at hrun
      · exact Except.noConfusion (congrArg Prod.snd hrun)
      · rename_i s2 pl heq
        obtain ⟨hpl, husers⟩ := PlaceFacade.create_place_ok_inv _ _ _ _ _ heq
        have hfst := congrArg Prod.fst hrun
        have hsnd := congrArg Prod.snd hrun
        have hplace : pl = place := Except.ok.inj hsnd
        subst hplace
        dsimp only at hfst
        refine ⟨by rw [hpl]; rfl, by rw [hpl]; rfl, ?_⟩
        refine ⟨{ u with places := u.places ++ [pl.id] }, ?_, ?_⟩
        · rw [← hfst]
          show (s2.users.updateVal user_id _).get user_id = _
          rw [husers, Storage.get_updateVal, hU]
          rfl
        · show (u.places ++ [pl.id]).count newId = 1
          rw [hpl]
          show (u.places ++ [newId]).count newId = 1
          simp [List.count_append, List.count_eq_zero.mpr hfresh]
    · intro s1 place hrun
      simp only [SQLAlchemyFacadeRelationManager.create_place_for_user, hU] at hrun
      split at hrun
      · exact Except.noConfusion (congrArg Prod.snd hrun)
      · rename_i s2 pl heq
        obtain ⟨hpl, husers⟩ := PlaceFacade.create_place_ok_inv _ _ _ _ _ heq
        have hfst := congrArg Prod.fst hrun
        have hsnd := congrArg Prod.snd hrun
        have hplace : pl = place := Except.ok.inj hsnd
        subst hplace
        have hco : u.places.contains pl.id = false := by
          rw [hpl]
          show u.places.contains newId = false
          simp [List.elem_eq_mem, hfresh]
        dsimp only at hfst
        refine ⟨by rw [hpl]; rfl, by rw [hpl]; rfl, ?_⟩
        refine ⟨{ u with places := u.places ++ [pl.id] }, ?_, ?_⟩
        · rw [← hfst]
          dsimp only
          rw [hco]
          simp only [Bool.false_eq_true, if_false]
          rw [husers, Storage.get_updateVal, hU]
          rfl
        · show (u.places ++ [pl.id]).count newId = 1
          rw [hpl]
          show (u.places ++ [newId]).count newId = 1
          simp [List.count_append, List.count_eq_zero.mpr hfresh]

open Core Fixtures in
/-- C3 witness: concrete run of `C3_create_place_for_user_exactly_once`
on a state holding only the user `u1`, creating a valid place with the
fresh id `p9`: the returned place is owned by `u1` and `p9` appears
exactly once in `u1.places`. -/
theorem C3_create_place_for_user_exactly_once_witness :
    (stateUserOnly.users.get "u1" = some { alice with places := [] }
      ∧ ("p9" : String) ∉ ({ alice with places := [] } : User).places)
    ∧ (∀ s1 place,
        FacadeRelationManager.create_place_for_user stateUserOnly "p9" "u1" loftData
          = (s1, .ok place) →
        place.owner_id = "u1" ∧ place.id = "p9"
          ∧ ∃ u1, s1.users.get "u1" = some u1 ∧ u1.places.count "p9" = 1)
    ∧ (FacadeRelationManager.create_place_for_user stateUserOnly "p9" "u1" loftData).2
        = .ok (Place.init "p9"
            { loftData with owner_id := "u1", amenities := some [],
                            reviews := some [], owner_first_name := "Alice" }) :=
  ⟨⟨by decide, by decide⟩,
   (((C3_create_place_for_user_exactly_once stateUserOnly "p9" "u1" loftData).2
      { alice with places := [] } (by decide) (by decide)).1 : _),
   by decide⟩

/-- C7: for each of the four entity types, reconstructing an object from
its own exported record through the file backend's `dict_to_obj` and
re-exporting it with `to_dict` yields a record field-for-field equal to
the original export, timestamps included. -/
theorem C7_export_roundtrip :
    ∀ (u : Files.User) (p : Files.Place) (r : Files.Review) (a : Files.Amenity),
      (Files.dict_to_obj (Files.ObjRecord.user u.to_dict)).map Files.ObjModel.to_dict
        = .ok (Files.ObjRecord.user u.to_dict)
      ∧ (Files.dict_to_obj (Files.ObjRecord.place p.to_dict)).map Files.ObjModel.to_dict
        = .ok (Files.ObjRecord.place p.to_dict)
      ∧ (Files.dict_to_obj (Files.ObjRecord.review r.to_dict)).map Files.ObjModel.to_dict
        = .ok (Files.ObjRecord.review r.to_dict)
      ∧ (Files.dict_to_obj (Files.ObjRecord.amenity a.to_dict)).map Files.ObjModel.to_dict
        = .ok (Files.ObjRecord.amenity a.to_dict) :=
  fun _ _ _ _ => ⟨rfl, rfl, rfl, rfl⟩
